import Mathlib

/-!
Shallow embedding of IzumiH2005/Audio-downloader (src/main.py), a Telegram
bot that searches YouTube, lets the user pick one of several candidates,
downloads the audio, fingerprints it and records it in an SQLite database.

Conventions of the embedding:
* SQLite datetimes are modelled as natural-number timestamps.
* The `users` table is a partial map from user id to row; the `downloads`
  table is the list of its rows in insertion order.
* `hashlib.md5` is an external library; its incremental interface is
  modelled by accumulating the fed bytes and applying an arbitrary digest
  function `md5hex` to the accumulated byte list (hashlib guarantees that
  feeding chunks is equivalent to hashing their concatenation).  Theorems
  quantify over `md5hex`.
* Each `with sqlite3.connect(...)` block commits on success and rolls the
  transaction back when an exception escapes it, so a database operation
  is one atomic function from `DB` to `DB`.
-/

namespace AudioBot

/-- `self.MAX_FILE_SIZE_MB = 50` (main.py line 54). -/
def MAX_FILE_SIZE_MB : Nat := 50

/-- `self.MAX_SEARCH_RESULTS = 5` (main.py line 55). -/
def MAX_SEARCH_RESULTS : Nat := 5

/-- `self.RATE_LIMIT_SECONDS = 30` (main.py line 56).
This constant is never read anywhere else in main.py. -/
def RATE_LIMIT_SECONDS : Nat := 30

/-- A row of the `users` table (main.py lines 85-95).
`user_id` is the primary key, kept as the index of the map. -/
structure UserRow where
  username : String
  first_name : String
  last_name : String
  join_date : Nat
  total_downloads : Nat
  last_download_date : Nat
  deriving Repr, DecidableEq

/-- A row of the `downloads` table (main.py lines 98-108).
The autoincrement id is the position in the list. -/
structure DownloadRow where
  user_id : Int
  video_id : String
  title : String
  download_date : Nat
  file_hash : String
  deriving Repr, DecidableEq

/-- The SQLite database state: the two tables created by `_init_database`. -/
structure DB where
  users : Int → Option UserRow
  downloads : List DownloadRow

/-- The freshly created database: both tables empty. -/
def initDB : DB := { users := fun _ => none, downloads := [] }

/-- The Telegram user dict (`update.effective_user.to_dict()`), with the
`user.get` defaults (empty string) already applied. -/
structure UserDict where
  id : Int
  username : String
  first_name : String
  last_name : String
  deriving Repr, DecidableEq

/-- One entry of yt-dlp search results / the video dict passed to
`_log_user_download`.  `vid` and `uploader` are optional because the code
reads them with `.get`. -/
structure Entry where
  vid : Option String
  title : String
  webpage_url : String
  uploader : Option String
  deriving Repr, DecidableEq

/-- `f.read(4096)` loop of `_calculate_file_hash` (main.py lines 153-155):
split the file content into successive chunks of at most 4096 bytes.
Fuel-indexed so that it is structural (the fuel is the file length; each
step consumes at least one byte). -/
def readChunksAux : Nat → List Nat → List (List Nat)
  | 0, _ => []
  | _, [] => []
  | fuel + 1, c => c.take 4096 :: readChunksAux fuel (c.drop 4096)

/-- The sequence of chunks `f.read(4096)` yields on a file whose bytes are
`content`. -/
def readChunks (content : List Nat) : List (List Nat) :=
  readChunksAux content.length content

/-- `_calculate_file_hash` (main.py lines 150-156): feed the file to the
md5 object chunk by chunk and return the hex digest.  The md5 state is
the list of bytes fed so far (`update` appends), and `md5hex` is the
digest function of the external hashlib collaborator. -/
def calculate_file_hash (md5hex : List Nat → String) (content : List Nat) : String :=
  md5hex ((readChunks content).foldl (fun acc chunk => acc ++ chunk) [])

/-- `_log_user_download` (main.py lines 111-148): hash the file, then in
one transaction `INSERT OR REPLACE` the user row (the `total_downloads` of the new row is `COALESCE((SELECT total_downloads + 1 ...), 1)` and
every other column comes from the current event, `join_date` and
`last_download_date` both being `datetime.now()`), and append a row to
`downloads`. -/
def log_user_download (md5hex : List Nat → String) (db : DB) (user : UserDict)
    (video_info : Entry) (fileContent : List Nat) (now : Nat) : DB :=
  let file_hash := calculate_file_hash md5hex fileContent
  let newTotal : Nat :=
    match db.users user.id with
    | some r => r.total_downloads + 1
    | none => 1
  let newRow : UserRow :=
    { username := user.username
      first_name := user.first_name
      last_name := user.last_name
      join_date := now
      total_downloads := newTotal
      last_download_date := now }
  let dl : DownloadRow :=
    { user_id := user.id
      video_id := video_info.vid.getD "unknown"
      title := video_info.title
      download_date := now
      file_hash := file_hash }
  { users := fun uid => if uid = user.id then some newRow else db.users uid
    downloads := db.downloads ++ [dl] }

/-- Number of rows of the `downloads` table belonging to `uid`
(`SELECT COUNT(*) FROM downloads WHERE user_id = ?`). -/
def downloadsCount (db : DB) (uid : Int) : Nat :=
  (db.downloads.filter (fun d => d.user_id == uid)).length

/-- Counter invariant of the spec: for every stored user, `total_downloads`
equals their row count in `downloads`, and users without a row have no
download rows. -/
def counterInvariant (db : DB) : Prop :=
  ∀ uid : Int,
    (∀ r : UserRow, db.users uid = some r → r.total_downloads = downloadsCount db uid) ∧
    (db.users uid = none → downloadsCount db uid = 0)

/-- One recorded download: the arguments of one `_log_user_download` call. -/
structure LogEvent where
  user : UserDict
  video : Entry
  content : List Nat
  now : Nat

/-- Replay a sequence of recorded downloads starting from the fresh
database. -/
def runLogs (md5hex : List Nat → String) (events : List LogEvent) : DB :=
  events.foldl (fun db e => log_user_download md5hex db e.user e.video e.content e.now) initDB

theorem downloadsCount_log (md5hex : List Nat → String) (db : DB) (user : UserDict)
    (video : Entry) (content : List Nat) (now : Nat) (uid : Int) :
    downloadsCount (log_user_download md5hex db user video content now) uid =
      downloadsCount db uid + (if uid = user.id then 1 else 0) := by
  simp only [downloadsCount, log_user_download, List.filter_append]
  simp only [List.length_append]
  by_cases h : uid = user.id
  · subst h
    simp [List.filter]
  · simp only [if_neg h, List.filter]
    have : (user.id == uid) = false := by
      simp [BEq.beq]
      exact fun he => h he.symm
    simp [this]

theorem counterInvariant_log (md5hex : List Nat → String) (db : DB) (user : UserDict)
    (video : Entry) (content : List Nat) (now : Nat)
    (hinv : counterInvariant db) :
    counterInvariant (log_user_download md5hex db user video content now) := by
  intro uid
  have hcount := downloadsCount_log md5hex db user video content now uid
  constructor
  · intro r hr
    by_cases h : uid = user.id
    · subst h
      simp only [log_user_download, eq_self_iff_true, if_true, Option.some.injEq] at hr
      rw [hcount, if_pos rfl]
      rw [← hr]
      cases hu : db.users user.id with
      | none =>
          have h0 := (hinv user.id).2 hu
          simp [hu, h0]
      | some r0 =>
          have h0 := (hinv user.id).1 r0 hu
          simp [hu, h0]
    · simp only [log_user_download, if_neg h] at hr
      rw [hcount, if_neg h]
      simpa using (hinv uid).1 r hr
  · intro hr
    by_cases h : uid = user.id
    · subst h
      simp [log_user_download] at hr
    · simp only [log_user_download, if_neg h] at hr
      rw [hcount, if_neg h]
      simpa using (hinv uid).2 hr

theorem counterInvariant_init : counterInvariant initDB := by
  intro uid
  constructor
  · intro r hr
    simp [initDB] at hr
  · intro _
    simp [downloadsCount, initDB]

theorem counterInvariant_foldl (md5hex : List Nat → String) (events : List LogEvent)
    (db : DB) (hinv : counterInvariant db) :
    counterInvariant
      (events.foldl (fun db e => log_user_download md5hex db e.user e.video e.content e.now) db) := by
  induction events generalizing db with
  | nil => simpa using hinv
  | cons e es ih =>
      simp only [List.foldl_cons]
      exact ih _ (counterInvariant_log md5hex db e.user e.video e.content e.now hinv)

/-- Claim C1: after any sequence of recorded downloads (each
`_log_user_download` call being one SQLite transaction that both upserts
the user row and inserts the download row), for every user the
`total_downloads` counter in the `users` table equals the number of rows
of the `downloads` table for that user, and users with no row have no
download rows. -/
theorem c1_total_downloads_invariant (md5hex : List Nat → String)
    (events : List LogEvent) :
    counterInvariant (runLogs md5hex events) :=
  counterInvariant_foldl md5hex events initDB counterInvariant_init

theorem readChunksAux_bounded (fuel : Nat) (c : List Nat) :
    ∀ chunk ∈ readChunksAux fuel c, chunk.length ≤ 4096 := by
  induction fuel generalizing c with
  | zero => intro chunk h; simp [readChunksAux] at h
  | succ fuel ih =>
      intro chunk h
      cases c with
      | nil => simp [readChunksAux] at h
      | cons x xs =>
          simp only [readChunksAux, List.mem_cons] at h
          rcases h with h | h
          · subst h
            simp
          · exact ih _ chunk h

theorem readChunksAux_foldl (fuel : Nat) (c : List Nat) (hfuel : c.length ≤ fuel)
    (acc : List Nat) :
    (readChunksAux fuel c).foldl (fun a chunk => a ++ chunk) acc = acc ++ c := by
  induction fuel generalizing c acc with
  | zero =>
      have : c = [] := List.length_eq_zero.mp (Nat.le_zero.mp hfuel)
      subst this
      simp [readChunksAux]
  | succ fuel ih =>
      cases c with
      | nil => simp [readChunksAux]
      | cons x xs =>
          simp only [readChunksAux, List.foldl_cons]
          rw [ih ((x :: xs).drop 4096)
            (by
              have hlen : (x :: xs).length ≤ fuel + 1 := hfuel
              have : ((x :: xs).drop 4096).length = (x :: xs).length - 4096 := by
                simp
              omega)]
          rw [List.append_assoc, List.take_append_drop]

theorem readChunks_foldl (content : List Nat) :
    (readChunks content).foldl (fun a chunk => a ++ chunk) [] = content := by
  simpa using readChunksAux_foldl content.length content (Nat.le_refl _) []

/-- Claim C8: `_calculate_file_hash` reads the file in chunks of at most
4096 bytes (never the whole file at once), the bytes fed to the digest
are exactly the file content, and the operation is deterministic: two
files with identical byte content receive the same digest, for any
digest function of the hashlib collaborator. -/
theorem c8_fingerprint_chunked_deterministic (md5hex : List Nat → String)
    (c1 c2 : List Nat) (hsame : c1 = c2) :
    (∀ chunk ∈ readChunks c1, chunk.length ≤ 4096) ∧
    calculate_file_hash md5hex c1 = md5hex c1 ∧
    calculate_file_hash md5hex c1 = calculate_file_hash md5hex c2 := by
  refine ⟨readChunksAux_bounded _ _, ?_, by rw [hsame]⟩
  unfold calculate_file_hash
  rw [readChunks_foldl]

/-- Witness for C8 at a concrete 3-byte file and a concrete digest
function. -/
theorem c8_fingerprint_witness :
    (∀ chunk ∈ readChunks [1, 2, 3], chunk.length ≤ 4096) ∧
    calculate_file_hash (fun l => toString l.length) [1, 2, 3] =
      (fun l => toString l.length) [1, 2, 3] ∧
    calculate_file_hash (fun l => toString l.length) [1, 2, 3] =
      calculate_file_hash (fun l => toString l.length) [1, 2, 3] :=
  c8_fingerprint_chunked_deterministic (fun l => toString l.length) [1, 2, 3] [1, 2, 3] rfl

/-- The three conversation states of the handler: `ConversationHandler.END`
and the two states declared on main.py line 35. -/
inductive ConvState
  | endConv
  | searchQueryState
  | selectResultState
  deriving Repr, DecidableEq

/-- What `ydl.extract_info("ytsearch5:" + query, download=False)` can give
back, as discriminated by main.py line 250
(`if not search_results or "entries" not in search_results`):
an exception, a falsy value (None or an empty dict), a truthy dict
without an entries key, or a dict with an entries list. -/
inductive ExtractOutcome
  | raised (msg : String)
  | falsy
  | noEntriesKey
  | withEntries (entries : List Entry)
  deriving Repr, DecidableEq

/-- The user-facing reply at the end of `search_audio`. -/
inductive SearchReply
  | noResults
  | searchError
  | resultsShown
  deriving Repr, DecidableEq

/-- The observable result of one `search_audio` call. -/
structure SearchOutput where
  requestedLimit : Nat
  reply : SearchReply
  buttons : List String
  stored : Option (List Entry)
  nextState : ConvState
  deriving Repr, DecidableEq

/-- The label of one result button (main.py line 257): the 1-based rank,
the title cut to its first 50 characters, and a trailing ellipsis.
`i` is the 0-based position in the displayed list. -/
def buttonLabel (i : Nat) (v : Entry) : String :=
  toString (i + 1) ++ ". " ++ v.title.take 50 ++ "..."

/-- `search_audio` (main.py lines 232-283) given the behaviour of the
external extraction call: on exception, log and reply with the search
error message, conversation ends; on a falsy result or a result without
an entries key, reply that nothing was found, conversation ends;
otherwise build one button per entry of the first
`MAX_SEARCH_RESULTS` entries, store the whole entries list in
`context.user_data`, and move to `SELECT_RESULT`. -/
def search_audio (outcome : ExtractOutcome) : SearchOutput :=
  match outcome with
  | .raised _ =>
      { requestedLimit := MAX_SEARCH_RESULTS
        reply := .searchError
        buttons := []
        stored := none
        nextState := .endConv }
  | .falsy =>
      { requestedLimit := MAX_SEARCH_RESULTS
        reply := .noResults
        buttons := []
        stored := none
        nextState := .endConv }
  | .noEntriesKey =>
      { requestedLimit := MAX_SEARCH_RESULTS
        reply := .noResults
        buttons := []
        stored := none
        nextState := .endConv }
  | .withEntries entries =>
      { requestedLimit := MAX_SEARCH_RESULTS
        reply := .resultsShown
        buttons := (entries.take MAX_SEARCH_RESULTS).enum.map fun p => buttonLabel p.1 p.2
        stored := some entries
        nextState := .selectResultState }

/-- A sample candidate entry used in concrete scenarios. -/
def sampleEntry : Entry :=
  { vid := some "vid1"
    title := "Song"
    webpage_url := "https://example.org/w"
    uploader := some "Uploader" }

/-- Counterexample to claim C6: a search whose extraction returns a dict
with an empty entries list (the usual shape of a zero-hit search) still
moves the session to `SELECT_RESULT` (AwaitingSelection) with an empty
stored candidate list, instead of replying NoResults and returning to
Idle: the truthiness test on line 250 does not look at the list itself. -/
theorem c6_empty_entries_counterexample :
    (search_audio (ExtractOutcome.withEntries [])).nextState =
      ConvState.selectResultState ∧
    (search_audio (ExtractOutcome.withEntries [])).stored = some [] ∧
    (search_audio (ExtractOutcome.withEntries [])).reply ≠ SearchReply.noResults :=
  ⟨rfl, rfl, by decide⟩

/-- Claim C6 as amended: the session enters AwaitingSelection exactly when
the extraction call returns a dict carrying an entries list, even an
empty one; the NoResults reply is produced exactly for a falsy result or
a result without an entries key, and the search-error reply exactly when
the extraction call raises; every reply other than results-shown ends
the conversation (back to Idle). -/
theorem c6_awaiting_selection_characterisation (outcome : ExtractOutcome) :
    ((search_audio outcome).nextState = ConvState.selectResultState ↔
      ∃ entries, outcome = ExtractOutcome.withEntries entries) ∧
    ((search_audio outcome).reply = SearchReply.noResults ↔
      (outcome = ExtractOutcome.falsy ∨ outcome = ExtractOutcome.noEntriesKey)) ∧
    ((search_audio outcome).reply = SearchReply.searchError ↔
      ∃ msg, outcome = ExtractOutcome.raised msg) ∧
    ((search_audio outcome).reply ≠ SearchReply.resultsShown →
      (search_audio outcome).nextState = ConvState.endConv) := by
  cases outcome <;> simp [search_audio]

/-- Witness for the implication of the amended C6 at a concrete outcome. -/
theorem c6_awaiting_selection_witness :
    ((search_audio ExtractOutcome.falsy).nextState = ConvState.selectResultState ↔
      ∃ entries, ExtractOutcome.falsy = ExtractOutcome.withEntries entries) ∧
    ((search_audio ExtractOutcome.falsy).reply = SearchReply.noResults ↔
      (ExtractOutcome.falsy = ExtractOutcome.falsy ∨
        ExtractOutcome.falsy = ExtractOutcome.noEntriesKey)) ∧
    ((search_audio ExtractOutcome.falsy).reply = SearchReply.searchError ↔
      ∃ msg, ExtractOutcome.falsy = ExtractOutcome.raised msg) ∧
    ((search_audio ExtractOutcome.falsy).reply ≠ SearchReply.resultsShown →
      (search_audio ExtractOutcome.falsy).nextState = ConvState.endConv) :=
  c6_awaiting_selection_characterisation ExtractOutcome.falsy

/-- Counterexample to claim C9: when the extraction collaborator returns
six entries, the session stores all six, so the stored candidate list is
not bounded by `MAX_SEARCH_RESULTS = 5`; only the displayed buttons are. -/
theorem c9_stores_more_than_limit_counterexample :
    ((search_audio (ExtractOutcome.withEntries
        [sampleEntry, sampleEntry, sampleEntry, sampleEntry, sampleEntry,
          sampleEntry])).stored.getD []).length = 6 ∧
    MAX_SEARCH_RESULTS < 6 :=
  ⟨rfl, by decide⟩

/-- Claim C9 as amended: the search requests at most
`MAX_SEARCH_RESULTS` candidates from the collaborator and displays at
most that many buttons, each labelled with the title cut to 50
characters; the session stores the entire returned entries list with the
untruncated titles, so the stored list is bounded by the limit exactly
when the collaborator returns at most that many entries. -/
theorem c9_request_display_storage (entries : List Entry)
    (hbound : entries.length ≤ MAX_SEARCH_RESULTS) :
    (search_audio (ExtractOutcome.withEntries entries)).requestedLimit =
      MAX_SEARCH_RESULTS ∧
    (search_audio (ExtractOutcome.withEntries entries)).buttons.length ≤
      MAX_SEARCH_RESULTS ∧
    ((search_audio (ExtractOutcome.withEntries entries)).stored.getD []).map
        Entry.title = entries.map Entry.title ∧
    ((search_audio (ExtractOutcome.withEntries entries)).stored.getD []).length ≤
      MAX_SEARCH_RESULTS := by
  refine ⟨rfl, ?_, by simp [search_audio], by simpa [search_audio] using hbound⟩
  simp only [search_audio, List.length_map, List.enum_length]
  exact le_trans (List.length_take_le _ _) (le_refl _)

/-- Witness for C9 at a one-entry result list. -/
theorem c9_request_display_storage_witness :
    (search_audio (ExtractOutcome.withEntries [sampleEntry])).requestedLimit =
      MAX_SEARCH_RESULTS ∧
    (search_audio (ExtractOutcome.withEntries [sampleEntry])).buttons.length ≤
      MAX_SEARCH_RESULTS ∧
    ((search_audio (ExtractOutcome.withEntries [sampleEntry])).stored.getD []).map
        Entry.title = [sampleEntry].map Entry.title ∧
    ((search_audio (ExtractOutcome.withEntries [sampleEntry])).stored.getD []).length ≤
      MAX_SEARCH_RESULTS :=
  c9_request_display_storage [sampleEntry] (by decide)

/-- The callback payload arriving at `select_and_download`, after the
discriminations the code performs on main.py lines 290-301: the literal
cancel token, a token matching the select-video pattern followed by a
decimal number (so a selected index is always a natural number), or any
other payload. -/
inductive CallbackData
  | cancel
  | selectVideo (index : Nat)
  | noMatch
  deriving Repr, DecidableEq

/-- Behaviour of `ydl.extract_info(url, download=True)` on this attempt:
it raises (network failure, transcoding failure, or the artifact would
exceed `max_filesize`), producing no final artifact, or it produces the
artifact file with the given bytes. -/
inductive FetchBehaviour
  | fetchRaises (msg : String)
  | fetchOk (fileContent : List Nat)
  deriving Repr, DecidableEq

/-- Behaviour of opening the artifact and `send_audio`: raises, or the
audio reaches the user. -/
inductive SendBehaviour
  | sendRaises (msg : String)
  | sendOk
  deriving Repr, DecidableEq

/-- Behaviour of the `_log_user_download` call: raises (the SQLite
transaction is rolled back, or reading the file for the hash failed), or
commits. -/
inductive PersistBehaviour
  | persistRaises (msg : String)
  | persistOk
  deriving Repr, DecidableEq

/-- The final `edit_message_text` of one selection event, one constructor
per distinct message of main.py.  `rateLimited` is the outcome the
rate-limiter taxonomy of the spec prescribes for a denied attempt; it is
part of the vocabulary so that rate-limiting claims can be stated
against the code, which never produces it. -/
inductive Outcome
  | cancelled
  | invalidSelection
  | videoNotFound
  | success (title : String)
  | errorShown (msg : String)
  | rateLimited (retryAfter : Nat)
  deriving Repr, DecidableEq

/-- The InvalidSelection outcome of the spec covers the two invalid-pick
replies of the code: the one for a callback payload that does not match
the select-video pattern and the one for an out-of-range index. -/
def Outcome.isInvalidSelection : Outcome → Bool
  | .invalidSelection => true
  | .videoNotFound => true
  | _ => false

/-- Everything one `select_and_download` call depends on: the callback
payload, the candidate list read from
`context.user_data.get("search_results", [])` (the empty list when no
search preceded the selection), the user, the behaviour of the three
external effects, and the wall-clock time. -/
structure SelectInput where
  data : CallbackData
  searchResults : List Entry
  user : UserDict
  fetch : FetchBehaviour
  send : SendBehaviour
  persist : PersistBehaviour
  now : Nat

/-- The observable result of one `select_and_download` call: the final
user-facing outcome, whether the external fetch was invoked, whether the
artifact file was created on disk, whether the audio was delivered,
whether `os.remove` ran on the artifact, the database afterwards, and
the conversation state returned. -/
structure SelectResult where
  outcome : Outcome
  fetchInvoked : Bool
  fileCreated : Bool
  delivered : Bool
  fileRemoved : Bool
  db : DB
  nextState : ConvState

/-- `select_and_download` (main.py lines 285-340).  The checks happen in
the order of the code: the cancel token, the select-video pattern, the
index bound against the stored candidate list; then the fetch, the
delivery, the `_log_user_download` write and `os.remove` run in
sequence inside one try block whose handler reports the exception text
to the user, so the first effect that raises skips everything after it
(in particular `os.remove` runs only when fetch, delivery and
persistence all succeeded).  Every branch returns
`ConversationHandler.END`. -/
def select_and_download (md5hex : List Nat → String) (db : DB)
    (inp : SelectInput) : SelectResult :=
  match inp.data with
  | .cancel =>
      { outcome := .cancelled, fetchInvoked := false, fileCreated := false
        delivered := false, fileRemoved := false, db := db
        nextState := .endConv }
  | .noMatch =>
      { outcome := .invalidSelection, fetchInvoked := false, fileCreated := false
        delivered := false, fileRemoved := false, db := db
        nextState := .endConv }
  | .selectVideo index =>
      if h : index < inp.searchResults.length then
        let video := inp.searchResults.get ⟨index, h⟩
        match inp.fetch with
        | .fetchRaises msg =>
            { outcome := .errorShown msg, fetchInvoked := true
              fileCreated := false, delivered := false, fileRemoved := false
              db := db, nextState := .endConv }
        | .fetchOk content =>
            match inp.send with
            | .sendRaises msg =>
                { outcome := .errorShown msg, fetchInvoked := true
                  fileCreated := true, delivered := false, fileRemoved := false
                  db := db, nextState := .endConv }
            | .sendOk =>
                match inp.persist with
                | .persistRaises msg =>
                    { outcome := .errorShown msg, fetchInvoked := true
                      fileCreated := true, delivered := true, fileRemoved := false
                      db := db, nextState := .endConv }
                | .persistOk =>
                    { outcome := .success video.title, fetchInvoked := true
                      fileCreated := true, delivered := true, fileRemoved := true
                      db := log_user_download md5hex db inp.user video content inp.now
                      nextState := .endConv }
      else
        { outcome := .videoNotFound, fetchInvoked := false, fileCreated := false
          delivered := false, fileRemoved := false, db := db
          nextState := .endConv }

/-- A sample Telegram user used in concrete scenarios. -/
def sampleUser : UserDict :=
  { id := 42, username := "u42", first_name := "Ann", last_name := "B" }

/-- A sample digest function used in concrete scenarios. -/
def sampleMd5 : List Nat → String := fun l => toString l.length

/-- A fully valid selection of the only candidate, with all three
external effects succeeding, at the given time. -/
def okSelection (now : Nat) : SelectInput :=
  { data := .selectVideo 0
    searchResults := [sampleEntry]
    user := sampleUser
    fetch := .fetchOk [1, 2, 3]
    send := .sendOk
    persist := .persistOk
    now := now }

/-- Claim C2, behaviour of the code at the failing input: the same user
completes a successful download at time 100 and selects again at time
101, well inside the 30-second window, yet the second attempt invokes
the external fetch and is reported as a success, because
`RATE_LIMIT_SECONDS` is declared on main.py line 56 (and promised to the
user by the help text on line 198) but never consulted anywhere. -/
theorem c2_second_attempt_not_rate_limited :
    (select_and_download sampleMd5 initDB (okSelection 100)).outcome =
      Outcome.success "Song" ∧
    (select_and_download sampleMd5
        (select_and_download sampleMd5 initDB (okSelection 100)).db
        (okSelection 101)).outcome = Outcome.success "Song" ∧
    (select_and_download sampleMd5
        (select_and_download sampleMd5 initDB (okSelection 100)).db
        (okSelection 101)).fetchInvoked = true ∧
    101 - 100 < RATE_LIMIT_SECONDS :=
  ⟨rfl, rfl, rfl, by decide⟩

/-- Claim C3: a selection event whose index falls outside the stored
candidate list — including the case of an empty list because no search
preceded it — yields the InvalidSelection outcome, never invokes the
external fetch, and ends the conversation (session reset).  The
select-video pattern only matches decimal digits, so an index is never
negative. -/
theorem c3_out_of_range_selection (md5hex : List Nat → String) (db : DB)
    (inp : SelectInput) (index : Nat)
    (hdata : inp.data = CallbackData.selectVideo index)
    (hidx : inp.searchResults.length ≤ index) :
    (select_and_download md5hex db inp).outcome.isInvalidSelection = true ∧
    (select_and_download md5hex db inp).fetchInvoked = false ∧
    (select_and_download md5hex db inp).nextState = ConvState.endConv := by
  have hlt : ¬ index < inp.searchResults.length := Nat.not_lt.mpr hidx
  simp [select_and_download, hdata, hlt, Outcome.isInvalidSelection]

/-- Witness for C3: selecting index 0 with no prior search (empty stored
list). -/
theorem c3_out_of_range_selection_witness :
    (select_and_download sampleMd5 initDB
        { data := .selectVideo 0, searchResults := [], user := sampleUser
          fetch := .fetchOk [], send := .sendOk, persist := .persistOk
          now := 0 }).outcome.isInvalidSelection = true ∧
    (select_and_download sampleMd5 initDB
        { data := .selectVideo 0, searchResults := [], user := sampleUser
          fetch := .fetchOk [], send := .sendOk, persist := .persistOk
          now := 0 }).fetchInvoked = false ∧
    (select_and_download sampleMd5 initDB
        { data := .selectVideo 0, searchResults := [], user := sampleUser
          fetch := .fetchOk [], send := .sendOk, persist := .persistOk
          now := 0 }).nextState = ConvState.endConv :=
  c3_out_of_range_selection sampleMd5 initDB _ 0 rfl (by decide)

/-- Counterexample to claim C4: a valid selection whose fetch succeeds
(the artifact file is created) but whose delivery raises leaves the
attempt through the exception handler, on which `os.remove` never runs:
the artifact file is still on disk when the operation returns. -/
theorem c4_delivery_failure_keeps_file :
    (select_and_download sampleMd5 initDB
        { data := .selectVideo 0, searchResults := [sampleEntry]
          user := sampleUser, fetch := .fetchOk [7]
          send := .sendRaises "network down", persist := .persistOk
          now := 5 }).fileCreated = true ∧
    (select_and_download sampleMd5 initDB
        { data := .selectVideo 0, searchResults := [sampleEntry]
          user := sampleUser, fetch := .fetchOk [7]
          send := .sendRaises "network down", persist := .persistOk
          now := 5 }).fileRemoved = false :=
  ⟨rfl, rfl⟩

/-- Claim C4 as amended: the artifact file is deleted before the
operation returns exactly on the full success path (valid selection,
fetch, delivery and persistence all succeeded, i.e. the outcome reported
is the success message); on every error path after the file was created
— delivery failure, persistence failure — the file is left on disk. -/
theorem c4_file_removed_iff_success (md5hex : List Nat → String) (db : DB)
    (inp : SelectInput) :
    (select_and_download md5hex db inp).fileRemoved = true ↔
      ∃ t, (select_and_download md5hex db inp).outcome = Outcome.success t := by
  rcases inp with ⟨data, sr, user, fetch, send, persist, now⟩
  cases data with
  | cancel => simp [select_and_download]
  | noMatch => simp [select_and_download]
  | selectVideo index =>
      by_cases h : index < sr.length
      · cases fetch with
        | fetchRaises m => simp [select_and_download, h]
        | fetchOk content =>
            cases send with
            | sendRaises m => simp [select_and_download, h]
            | sendOk =>
                cases persist with
                | persistRaises m => simp [select_and_download, h]
                | persistOk => simp [select_and_download, h]
      · simp [select_and_download, h]

/-- Counterexample to claim C5: a valid selection whose fetch and
delivery succeed but whose persistence raises ends in the exception
handler, which reports the exception text to the user: the attempt is
not reported as a success even though the audio was already delivered,
and the storage failure text is shown to the user. -/
theorem c5_storage_failure_shown_counterexample :
    (select_and_download sampleMd5 initDB
        { data := .selectVideo 0, searchResults := [sampleEntry]
          user := sampleUser, fetch := .fetchOk [7], send := .sendOk
          persist := .persistRaises "database is locked"
          now := 5 }).delivered = true ∧
    (select_and_download sampleMd5 initDB
        { data := .selectVideo 0, searchResults := [sampleEntry]
          user := sampleUser, fetch := .fetchOk [7], send := .sendOk
          persist := .persistRaises "database is locked"
          now := 5 }).outcome = Outcome.errorShown "database is locked" :=
  ⟨rfl, rfl⟩

/-- Claim C5 as amended: when persistence fails after the artifact was
delivered, the user-facing outcome is the error message carrying the
exception text (not Success), the rolled-back transaction leaves the
database unchanged, and the conversation still ends; the delivery
itself is not rolled back. -/
theorem c5_storage_failure_changes_outcome (md5hex : List Nat → String)
    (db : DB) (inp : SelectInput) (index : Nat) (content : List Nat)
    (msg : String)
    (hdata : inp.data = CallbackData.selectVideo index)
    (hidx : index < inp.searchResults.length)
    (hfetch : inp.fetch = FetchBehaviour.fetchOk content)
    (hsend : inp.send = SendBehaviour.sendOk)
    (hpersist : inp.persist = PersistBehaviour.persistRaises msg) :
    (select_and_download md5hex db inp).delivered = true ∧
    (select_and_download md5hex db inp).outcome = Outcome.errorShown msg ∧
    (select_and_download md5hex db inp).db = db ∧
    (select_and_download md5hex db inp).nextState = ConvState.endConv := by
  simp [select_and_download, hdata, hidx, hfetch, hsend, hpersist]

/-- Witness for the amended C5 at a concrete input. -/
theorem c5_storage_failure_changes_outcome_witness :
    (select_and_download sampleMd5 initDB
        { data := .selectVideo 0, searchResults := [sampleEntry]
          user := sampleUser, fetch := .fetchOk [9, 9], send := .sendOk
          persist := .persistRaises "disk full", now := 6 }).delivered = true ∧
    (select_and_download sampleMd5 initDB
        { data := .selectVideo 0, searchResults := [sampleEntry]
          user := sampleUser, fetch := .fetchOk [9, 9], send := .sendOk
          persist := .persistRaises "disk full", now := 6 }).outcome =
      Outcome.errorShown "disk full" ∧
    (select_and_download sampleMd5 initDB
        { data := .selectVideo 0, searchResults := [sampleEntry]
          user := sampleUser, fetch := .fetchOk [9, 9], send := .sendOk
          persist := .persistRaises "disk full", now := 6 }).db = initDB ∧
    (select_and_download sampleMd5 initDB
        { data := .selectVideo 0, searchResults := [sampleEntry]
          user := sampleUser, fetch := .fetchOk [9, 9], send := .sendOk
          persist := .persistRaises "disk full", now := 6 }).nextState =
      ConvState.endConv :=
  c5_storage_failure_changes_outcome sampleMd5 initDB _ 0 [9, 9] "disk full"
    rfl (by decide) rfl rfl rfl

/-- A user row as it stood before a later recorded download. -/
def oldRow : UserRow :=
  { username := "oldname", first_name := "Old", last_name := "Name"
    join_date := 5, total_downloads := 0, last_download_date := 0 }

/-- A database that already stores user 42 (with the row `oldRow`). -/
def dbWithUser42 : DB :=
  { users := fun uid => if uid = 42 then some oldRow else none
    downloads := [] }

/-- Counterexample to claim C7: recording a download for the existing
user 42 at time 9 overwrites the first-seen timestamp `join_date`
(5 becomes 9) and the stored display name, because the upsert is an
INSERT OR REPLACE that rebuilds the whole row from the current event. -/
theorem c7_join_date_overwritten_counterexample :
    (dbWithUser42.users 42).map UserRow.join_date = some 5 ∧
    ((log_user_download sampleMd5 dbWithUser42 sampleUser sampleEntry [1] 9).users
        42).map UserRow.join_date = some 9 ∧
    (dbWithUser42.users 42).map UserRow.username = some "oldname" ∧
    ((log_user_download sampleMd5 dbWithUser42 sampleUser sampleEntry [1] 9).users
        42).map UserRow.username = some "u42" :=
  ⟨rfl, rfl, rfl, rfl⟩

/-- Claim C7 as amended: when the user row already exists, the upsert
replaces the entire row: `total_downloads` becomes the old value plus
one and `last_download_date` becomes the current time, but `join_date`
is also overwritten with the current time and the display-name columns
with the values carried by the current event; rows of other users are
untouched. -/
theorem c7_upsert_replaces_whole_row (md5hex : List Nat → String) (db : DB)
    (user : UserDict) (video : Entry) (content : List Nat) (now : Nat)
    (r : UserRow) (uid : Int)
    (hrow : db.users user.id = some r) (hother : uid ≠ user.id) :
    (log_user_download md5hex db user video content now).users user.id =
      some { username := user.username, first_name := user.first_name
             last_name := user.last_name, join_date := now
             total_downloads := r.total_downloads + 1
             last_download_date := now } ∧
    (log_user_download md5hex db user video content now).users uid =
      db.users uid := by
  constructor
  · simp [log_user_download, hrow]
  · simp [log_user_download, hother]

/-- Witness for the amended C7: user 42 exists with `oldRow`; the row is
rebuilt and user 7 is untouched. -/
theorem c7_upsert_replaces_whole_row_witness :
    (log_user_download sampleMd5 dbWithUser42 sampleUser sampleEntry [1] 9).users
        sampleUser.id =
      some { username := sampleUser.username, first_name := sampleUser.first_name
             last_name := sampleUser.last_name, join_date := 9
             total_downloads := oldRow.total_downloads + 1
             last_download_date := 9 } ∧
    (log_user_download sampleMd5 dbWithUser42 sampleUser sampleEntry [1] 9).users 7 =
      dbWithUser42.users 7 :=
  c7_upsert_replaces_whole_row sampleMd5 dbWithUser42 sampleUser sampleEntry [1] 9
    oldRow 7 rfl (by decide)

/-- The row fetched by the stats branch of `callback_handler`
(main.py lines 205-230): `total_downloads` and `last_download_date` from
the user row, and the subquery
SELECT COUNT(*) FROM downloads WHERE user_id = ?, which the query
aliases as unique_downloads. -/
structure StatsRow where
  total_downloads : Nat
  last_download_date : Nat
  unique_downloads : Nat
  deriving Repr, DecidableEq

/-- The stats query: `none` when the requesting user has no row (the
handler then reports that no statistics are available). -/
def getUserStats (db : DB) (uid : Int) : Option StatsRow :=
  match db.users uid with
  | none => none
  | some r =>
      some { total_downloads := r.total_downloads
             last_download_date := r.last_download_date
             unique_downloads := downloadsCount db uid }

/-- Claim C10: the unique-downloads value of the stats view is the plain
row count of the downloads table for that user, not a count of distinct
fingerprints; recording the same byte content twice appends two rows
carrying the same fingerprint and raises the value by two. -/
theorem c10_unique_downloads_is_row_count (md5hex : List Nat → String)
    (db : DB) (user : UserDict) (v1 v2 : Entry) (content : List Nat)
    (now1 now2 : Nat) (r : UserRow)
    (hrow : db.users user.id = some r) :
    (getUserStats db user.id).map StatsRow.unique_downloads =
      some (downloadsCount db user.id) ∧
    (getUserStats
        (log_user_download md5hex
          (log_user_download md5hex db user v1 content now1)
          user v2 content now2) user.id).map StatsRow.unique_downloads =
      some (downloadsCount db user.id + 2) ∧
    (log_user_download md5hex (log_user_download md5hex db user v1 content now1)
        user v2 content now2).downloads.map DownloadRow.file_hash =
      db.downloads.map DownloadRow.file_hash ++
        [calculate_file_hash md5hex content, calculate_file_hash md5hex content] := by
  have h1 := downloadsCount_log md5hex db user v1 content now1 user.id
  have h2 := downloadsCount_log md5hex
    (log_user_download md5hex db user v1 content now1) user v2 content now2 user.id
  rw [if_pos rfl] at h1 h2
  refine ⟨by simp [getUserStats, hrow], ?_, ?_⟩
  · have hself : (log_user_download md5hex
        (log_user_download md5hex db user v1 content now1)
        user v2 content now2).users user.id =
        some { username := user.username, first_name := user.first_name
               last_name := user.last_name, join_date := now2
               total_downloads :=
                 match (log_user_download md5hex db user v1 content now1).users
                     user.id with
                 | some r0 => r0.total_downloads + 1
                 | none => 1
               last_download_date := now2 } := by
      simp [log_user_download]
    simp only [getUserStats, hself, Option.map_some]
    rw [h2, h1]
    simp
  · simp [log_user_download]

/-- Witness for C10: user 42 already has a row; two recordings of the
same two-byte content at times 3 and 4. -/
theorem c10_unique_downloads_witness :
    (getUserStats dbWithUser42 sampleUser.id).map StatsRow.unique_downloads =
      some (downloadsCount dbWithUser42 sampleUser.id) ∧
    (getUserStats
        (log_user_download sampleMd5
          (log_user_download sampleMd5 dbWithUser42 sampleUser sampleEntry [1, 2] 3)
          sampleUser sampleEntry [1, 2] 4) sampleUser.id).map
        StatsRow.unique_downloads =
      some (downloadsCount dbWithUser42 sampleUser.id + 2) ∧
    (log_user_download sampleMd5
        (log_user_download sampleMd5 dbWithUser42 sampleUser sampleEntry [1, 2] 3)
        sampleUser sampleEntry [1, 2] 4).downloads.map DownloadRow.file_hash =
      dbWithUser42.downloads.map DownloadRow.file_hash ++
        [calculate_file_hash sampleMd5 [1, 2], calculate_file_hash sampleMd5 [1, 2]] :=
  c10_unique_downloads_is_row_count sampleMd5 dbWithUser42 sampleUser sampleEntry
    sampleEntry [1, 2] 3 4 oldRow rfl

end AudioBot
